import Mathlib

/-!
Verification of the Pass-Bot password-dictionary generator.

This file shallowly embeds the core of `src/28102025.py` (class
`PassBotEnterprise`): the seed-expansion helpers, the strength filter
(`PasswordStrength`), the deduplicating writer (`_write_password`), the seven
enumeration phases of `_generate_passwords`, and the checkpoint machinery
(`_save_progress` / `_load_progress` / `_handle_interrupt` and the completion
path of `run`).  Where a claim also cites `src/passbot_final_fixed.py`
(`FixedEnterprisePassBot._add_unique_password` and the progress-file cleanup of
`generate_continuous_until_interrupted`), those functions are embedded as well.

Modelling conventions:
* Python `str` is Lean `String`; Python string comparison (by code point) is
  `strLt` on the underlying character lists.  The Unicode-aware predicates
  `str.islower`/`isupper`/`isdigit`/`isalnum` and the case maps
  `lower`/`upper`/`capitalize` are modelled on their ASCII behaviour, which is
  exact for every candidate the generator builds from ASCII seeds.
* Python `float` arithmetic in the strength score is modelled over `ℚ`; the
  Shannon-entropy helper `calculate_entropy` (a float computation through
  `math.log2`) is kept abstract as a parameter `entropy : String → ℚ`, and
  every theorem below holds for an arbitrary such function.
* The Python `set` `generated_passwords` is a duplicate-free `List String`
  (elements are only ever inserted after a membership test, exactly as in the
  source); `len(...)` is `List.length`.
* Wall-clock fields (`generation_start_time`, `last_save_time`) carry no
  logic; they are kept in the checkpoint record as inert `ℚ` values.
* File I/O is replaced by explicit state: the output sink is the list of lines
  written so far, and the pickled progress file is an `Option ProgressState`.
-/

namespace PassBot

/-! ### Python string primitives (ASCII model) -/

/-- Lexicographic comparison of strings by code point, as Python `<` on `str`. -/
def strLtAux : List Char → List Char → Bool
  | [], [] => false
  | [], _ :: _ => true
  | _ :: _, [] => false
  | c :: cs, d :: ds =>
    if c.toNat < d.toNat then true
    else if d.toNat < c.toNat then false
    else strLtAux cs ds

/-- Python string `<`. -/
def strLt (a b : String) : Bool := strLtAux a.data b.data

/-- Insert into an ascending list, keeping Python `sorted`'s ascending order. -/
def insertSorted (x : String) : List String → List String
  | [] => [x]
  | y :: ys => if strLt y x then y :: insertSorted x ys else x :: y :: ys

/-- Python `sorted` on a list of strings (ascending, by code point). -/
def pySort (l : List String) : List String := l.foldr insertSorted []

/-- ASCII model of `str.lower` on one character. -/
def asciiLower (c : Char) : Char :=
  if 65 ≤ c.toNat ∧ c.toNat ≤ 90 then Char.ofNat (c.toNat + 32) else c

/-- ASCII model of `str.upper` on one character. -/
def asciiUpper (c : Char) : Char :=
  if 97 ≤ c.toNat ∧ c.toNat ≤ 122 then Char.ofNat (c.toNat - 32) else c

/-- Python `str.lower()`. -/
def pyLower (s : String) : String := ⟨s.data.map asciiLower⟩

/-- Python `str.upper()`. -/
def pyUpper (s : String) : String := ⟨s.data.map asciiUpper⟩

/-- Python `str.capitalize()`: first character upper-cased, the rest lower-cased. -/
def pyCapitalize (s : String) : String :=
  match s.data with
  | [] => ""
  | c :: cs => ⟨asciiUpper c :: cs.map asciiLower⟩

/-- ASCII model of `str.islower` on one character. -/
def pyIsLower (c : Char) : Bool := decide (97 ≤ c.toNat ∧ c.toNat ≤ 122)

/-- ASCII model of `str.isupper` on one character. -/
def pyIsUpper (c : Char) : Bool := decide (65 ≤ c.toNat ∧ c.toNat ≤ 90)

/-- ASCII model of `str.isdigit` on one character. -/
def pyIsDigit (c : Char) : Bool := decide (48 ≤ c.toNat ∧ c.toNat ≤ 57)

/-- ASCII model of `str.isalnum` on one character. -/
def pyIsAlnum (c : Char) : Bool := pyIsLower c || pyIsUpper c || pyIsDigit c

/-- The regex `(.)\1{2,}`: some character repeated at least three times in a row. -/
def hasTripleRepeat : List Char → Bool
  | a :: b :: c :: rest => (a == b && b == c) || hasTripleRepeat (b :: c :: rest)
  | _ => false

/-- Whether `pat` occurs at the start of `l`. -/
def beginsWith : List Char → List Char → Bool
  | [], _ => true
  | _ :: _, [] => false
  | a :: as, b :: bs => a == b && beginsWith as bs

/-- Whether `pat` occurs as a contiguous substring of `l` (regex search). -/
def containsSub (pat : List Char) : List Char → Bool
  | [] => pat.isEmpty
  | c :: cs => beginsWith pat (c :: cs) || containsSub pat cs

/-! ### `InputProfile` (28102025.py lines 137-150) -/

/-- User input configuration, as the `InputProfile` dataclass.  `max_output_count`
is `Optional[int]`; Python treats both `None` and `0` as "no cap". -/
structure InputProfile where
  words : List String
  mobile_numbers : List String
  date_fragments : List String
  year_ranges : List String
  special_chars : List String
  number_patterns : List String
  output_filename : String
  generation_mode : String
  use_underscore_separator : Bool
  min_output_count : Option Int
  max_output_count : Option Int
deriving DecidableEq, Repr

/-! ### `PasswordStrength` (28102025.py lines 152-219) -/

/-- The seven weak substrings of the regex
`(abc|123|qwe|password|admin|user|test)` in `calculate_score`. -/
def weakNeedles : List (List Char) :=
  ["abc".data, "123".data, "qwe".data, "password".data, "admin".data,
   "user".data, "test".data]

/-- Whether the weak-pattern regex matches (searched on the lower-cased password). -/
def hasWeakPattern (s : List Char) : Bool := weakNeedles.any fun n => containsSub n s

/-- `PasswordStrength.calculate_score` (lines 174-214), parametric in the
Shannon-entropy helper `entropy` (the float computation `calculate_entropy`).
Returns a score clamped to `[0, 100]`. -/
def calculate_score (entropy : String → ℚ) (password : String) : ℚ :=
  if password = "" then 0
  else
    let length := password.length
    let lengthScore : ℚ :=
      if 20 ≤ length then 30
      else if 16 ≤ length then 25
      else if 12 ≤ length then 20
      else if 8 ≤ length then 15
      else (length : ℚ) * (3 / 2)
    let hasLower := password.data.any pyIsLower
    let hasUpper := password.data.any pyIsUpper
    let hasDigit := password.data.any pyIsDigit
    let hasSpecial := password.data.any fun c => !(pyIsAlnum c)
    let charVariety : ℚ :=
      ((cond hasLower 1 0) + (cond hasUpper 1 0) + (cond hasDigit 1 0)
        + (cond hasSpecial 1 0) : ℕ)
    let entropyBonus : ℚ := min 30 (entropy password / 6 * 30)
    let base := lengthScore + charVariety * 10 + entropyBonus
    let base := if hasTripleRepeat password.data then base - 15 else base
    let base :=
      if hasWeakPattern (pyLower password).data then base - 20 else base
    max 0 (min 100 base)

/-- `PasswordStrength.is_strong` (lines 216-219); the call in `_write_password`
uses the default threshold `60.0`. -/
def is_strong (entropy : String → ℚ) (password : String) (threshold : ℚ) : Bool :=
  decide (threshold ≤ calculate_score entropy password)

/-! ### Element sets derived in `_generate_passwords` (lines 808-825) -/

/-- `_generate_word_variations` (lines 471-478): `list(set([lower, upper,
capitalize]))`; the set is modelled by erasing duplicates. -/
def generate_word_variations (word : String) : List String :=
  [pyLower word, pyUpper word, pyCapitalize word].eraseDups

/-- The `words` list of `_generate_passwords`: all variations, de-duplicated and
sorted. -/
def allWords (p : InputProfile) : List String :=
  pySort (p.words.flatMap generate_word_variations).eraseDups

/-- The `numbers` list of `_generate_passwords`: mobile fragments, date
fragments, year ranges and number patterns, de-duplicated and sorted. -/
def allNumbers (p : InputProfile) : List String :=
  pySort (p.mobile_numbers ++ p.date_fragments ++ p.year_ranges
    ++ p.number_patterns).eraseDups

/-- The `specials` list of `_generate_passwords`: the user's symbols, sorted
(the source does not de-duplicate them). -/
def allSpecials (p : InputProfile) : List String := pySort p.special_chars

/-- The `separators` list (lines 823-825): always `""`, plus `"_"` when enabled. -/
def allSeparators (p : InputProfile) : List String :=
  if p.use_underscore_separator then ["", "_"] else [""]

/-! ### Generation state and `_write_password` (lines 699-735) -/

/-- The fixed checkpoint cadence `backup_interval` (line 382). -/
def backupInterval : ℕ := 5000

/-- The mutable state touched by `_write_password`: the dedup set
`generated_passwords` (kept as a duplicate-free list), the output sink's lines,
the `strong_mode_filtered` counter, and — as a ghost trace — the accepted
counts at which the periodic `_save_progress` of line 732-733 fired. -/
structure GenState where
  generated : List String
  sink : List String
  filtered : ℕ
  savedCounts : List ℕ
deriving DecidableEq, Repr

/-- The fresh state of a new `PassBotEnterprise`. -/
def initState : GenState := ⟨[], [], 0, []⟩

/-- The max-count guard of lines 711-713: Python's
`if max_output_count and len(generated_passwords) >= max_output_count`. -/
def capBlocked (p : InputProfile) (s : GenState) : Bool :=
  match p.max_output_count with
  | none => false
  | some m => !(m == 0) && decide (m ≤ (s.generated.length : ℤ))

/-- `_write_password` (lines 699-735): duplicate check, strong-mode filtering,
max-count check, then insertion into the set and the sink; every
`backup_interval`-th accepted password triggers `_save_progress`. -/
def write_password (p : InputProfile) (entropy : String → ℚ) (password : String)
    (s : GenState) : Bool × GenState :=
  if s.generated.contains password then (false, s)
  else if p.generation_mode == "strong" && !(is_strong entropy password 60) then
    (false, { s with filtered := s.filtered + 1 })
  else if capBlocked p s then (false, s)
  else
    let s1 : GenState :=
      { s with generated := s.generated ++ [password], sink := s.sink ++ [password] }
    if s1.generated.length % backupInterval == 0 then
      (true, { s1 with savedCounts := s1.savedCounts ++ [s1.generated.length] })
    else (true, s1)

/-- Feed a list of candidates through `_write_password` in order. -/
def processList (p : InputProfile) (entropy : String → ℚ) :
    List String → GenState → GenState
  | [], s => s
  | c :: cs, s => processList p entropy cs (write_password p entropy c s).2

/-! ### The seven phases of `_generate_passwords` (lines 827-1093) -/

/-- Phase 1 (lines 828-845): each word. -/
def phase1 (p : InputProfile) : List String := allWords p

/-- Phase 2 (lines 848-865): each number. -/
def phase2 (p : InputProfile) : List String := allNumbers p

/-- Phase 3 (lines 868-899): `word + sep + number` and `number + sep + word`,
nested word-outermost. -/
def phase3 (p : InputProfile) : List String :=
  (allWords p).flatMap fun w =>
    (allNumbers p).flatMap fun n =>
      (allSeparators p).flatMap fun sep =>
        [w ++ sep ++ n, n ++ sep ++ w]

/-- Phase 4 (lines 902-935): `word + sep + special` and `special + sep + word`.
The source skips the phase when `specials` is empty, which coincides with this
enumeration being empty. -/
def phase4 (p : InputProfile) : List String :=
  (allWords p).flatMap fun w =>
    (allSpecials p).flatMap fun sp =>
      (allSeparators p).flatMap fun sep =>
        [w ++ sep ++ sp, sp ++ sep ++ w]

/-- Phase 5 (lines 938-971): `number + sep + special` and `special + sep + number`. -/
def phase5 (p : InputProfile) : List String :=
  (allNumbers p).flatMap fun n =>
    (allSpecials p).flatMap fun sp =>
      (allSeparators p).flatMap fun sep =>
        [n ++ sep ++ sp, sp ++ sep ++ n]

/-- Phase 6 (lines 974-1008): `word1 + sep + word2` over `enumerate`d index
pairs with `i == j` skipped.  The source skips the phase when there are fewer
than two words, which coincides with this enumeration being empty. -/
def phase6 (p : InputProfile) : List String :=
  (allWords p).enum.flatMap fun iw =>
    (allWords p).enum.flatMap fun jw =>
      if iw.1 = jw.1 then []
      else (allSeparators p).map fun sep => iw.2 ++ sep ++ jw.2

/-- Phase 7, first block (lines 1016-1054): word/number/special with two
separators, six orderings.  Guarded in the source by all three sets being
non-empty, which coincides with this enumeration being empty otherwise. -/
def phase7a (p : InputProfile) : List String :=
  (allWords p).flatMap fun w =>
    (allNumbers p).flatMap fun n =>
      (allSpecials p).flatMap fun sp =>
        (allSeparators p).flatMap fun s1 =>
          (allSeparators p).flatMap fun s2 =>
            [w ++ s1 ++ n ++ s2 ++ sp, w ++ s1 ++ sp ++ s2 ++ n,
             n ++ s1 ++ w ++ s2 ++ sp, n ++ s1 ++ sp ++ s2 ++ w,
             sp ++ s1 ++ w ++ s2 ++ n, sp ++ s1 ++ n ++ s2 ++ w]

/-- Phase 7, second block (lines 1057-1093): ordered distinct word pairs with a
number and two separators, three orderings. -/
def phase7b (p : InputProfile) : List String :=
  (allWords p).enum.flatMap fun iw =>
    (allWords p).enum.flatMap fun jw =>
      if iw.1 = jw.1 then []
      else
        (allNumbers p).flatMap fun n =>
          (allSeparators p).flatMap fun s1 =>
            (allSeparators p).flatMap fun s2 =>
              [iw.2 ++ s1 ++ jw.2 ++ s2 ++ n, iw.2 ++ s1 ++ n ++ s2 ++ jw.2,
               n ++ s1 ++ iw.2 ++ s2 ++ jw.2]

/-- Phase 7 (lines 1010-1093): both blocks share one position counter, the
second continuing where the first stopped. -/
def phase7 (p : InputProfile) : List String := phase7a p ++ phase7b p

/-- The full candidate stream of an uninterrupted `_generate_passwords` call. -/
def fullStream (p : InputProfile) : List String :=
  phase1 p ++ phase2 p ++ phase3 p ++ phase4 p ++ phase5 p ++ phase6 p ++ phase7 p

/-- The candidate stream processed by `_generate_passwords` when entered with
`current_phase = ph` and `phase_position = pos`: the source re-runs the phase's
nested loops and `continue`s past the first `pos` candidates, then runs every
later phase in full. -/
def streamFrom (p : InputProfile) (ph pos : ℕ) : List String :=
  if ph = 1 then
    (phase1 p).drop pos ++ phase2 p ++ phase3 p ++ phase4 p ++ phase5 p
      ++ phase6 p ++ phase7 p
  else if ph = 2 then
    (phase2 p).drop pos ++ phase3 p ++ phase4 p ++ phase5 p ++ phase6 p
      ++ phase7 p
  else if ph = 3 then
    (phase3 p).drop pos ++ phase4 p ++ phase5 p ++ phase6 p ++ phase7 p
  else if ph = 4 then (phase4 p).drop pos ++ phase5 p ++ phase6 p ++ phase7 p
  else if ph = 5 then (phase5 p).drop pos ++ phase6 p ++ phase7 p
  else if ph = 6 then (phase6 p).drop pos ++ phase7 p
  else if ph = 7 then (phase7 p).drop pos
  else []

/-- The `{current_phase, phase_position}` cursor reached after `k` candidates
have been considered: positions count candidates within the current phase, and
reset to `0` at each phase transition. -/
def cursorAfter (p : InputProfile) (k : ℕ) : ℕ × ℕ :=
  if k ≤ (phase1 p).length then (1, k)
  else if k - (phase1 p).length ≤ (phase2 p).length then
    (2, k - (phase1 p).length)
  else if k - (phase1 p).length - (phase2 p).length ≤ (phase3 p).length then
    (3, k - (phase1 p).length - (phase2 p).length)
  else if k - (phase1 p).length - (phase2 p).length - (phase3 p).length
      ≤ (phase4 p).length then
    (4, k - (phase1 p).length - (phase2 p).length - (phase3 p).length)
  else if k - (phase1 p).length - (phase2 p).length - (phase3 p).length
      - (phase4 p).length ≤ (phase5 p).length then
    (5, k - (phase1 p).length - (phase2 p).length - (phase3 p).length
      - (phase4 p).length)
  else if k - (phase1 p).length - (phase2 p).length - (phase3 p).length
      - (phase4 p).length - (phase5 p).length ≤ (phase6 p).length then
    (6, k - (phase1 p).length - (phase2 p).length - (phase3 p).length
      - (phase4 p).length - (phase5 p).length)
  else
    (7, k - (phase1 p).length - (phase2 p).length - (phase3 p).length
      - (phase4 p).length - (phase5 p).length - (phase6 p).length)

/-! ### Checkpoints (`ProgressState`, `_save_progress`, `_load_progress`,
`_handle_interrupt`, and the completion paths) -/

/-- The pickled `ProgressState` dataclass (lines 125-135).  The two wall-clock
fields carry no logic. -/
structure ProgressState where
  generated_passwords : List String
  current_phase : ℕ
  phase_position : ℕ
  total_generated : ℕ
  generation_start_time : ℚ
  last_save_time : ℚ
  input_profile_data : Option InputProfile
  strong_mode_filtered : ℕ
deriving DecidableEq, Repr

/-- `_save_progress` (lines 423-441): the record pickled to the progress file.
`input_profile_data` is `asdict(profile)` when a profile is set, else the empty
(falsy) dict, modelled as `none`. -/
def save_progress (profile : Option InputProfile) (ph pos : ℕ) (s : GenState) :
    ProgressState :=
  { generated_passwords := s.generated
    current_phase := ph
    phase_position := pos
    total_generated := s.generated.length
    generation_start_time := 0
    last_save_time := 0
    input_profile_data := profile
    strong_mode_filtered := s.filtered }

/-- `_handle_interrupt` (lines 389-407): sets the `interrupted` flag and
unconditionally writes a checkpoint; returns the new progress-file content and
the flag. -/
def handle_interrupt (profile : Option InputProfile) (ph pos : ℕ) (s : GenState)
    (_file : Option ProgressState) : Option ProgressState × Bool :=
  (some (save_progress profile ph pos s), true)

/-- The fields of the bot restored by `_load_progress`. -/
structure LoadedBot where
  generated : List String
  current_phase : ℕ
  phase_position : ℕ
  strong_mode_filtered : ℕ
  input_profile : Option InputProfile
deriving DecidableEq, Repr

/-- `_load_progress` (lines 443-468): returns `false` when no progress file
exists; otherwise unconditionally restores the set, cursor and counters from
the checkpoint, overwrites the profile with the stored one when present, and
returns `true`.  No fingerprint is computed or compared. -/
def load_progress (file : Option ProgressState) (b : LoadedBot) :
    Bool × LoadedBot :=
  match file with
  | none => (false, b)
  | some ps =>
    (true,
      { generated := ps.generated_passwords
        current_phase := ps.current_phase
        phase_position := ps.phase_position
        strong_mode_filtered := ps.strong_mode_filtered
        input_profile :=
          match ps.input_profile_data with
          | some pr => some pr
          | none => b.input_profile })

/-- The completion path of `PassBotEnterprise.run` (lines 1167-1178): after
generation, when not interrupted, `_save_progress` is called once more; the
progress file is never removed. -/
def runCompletionFile (interrupted : Bool) (ck : ProgressState)
    (file : Option ProgressState) : Option ProgressState :=
  if interrupted then file else some ck

/-- The completion path of
`FixedEnterprisePassBot.generate_continuous_until_interrupted`
(passbot_final_fixed.py lines 1001-1008): when not interrupted, the progress
file is removed. -/
def fixedCompletionCleanup (interrupted : Bool) (file : Option ProgressState) :
    Option ProgressState :=
  if interrupted then file else none

/-! ### Whole runs: uninterrupted, interrupted, resumed -/

/-- An uninterrupted run of `_generate_passwords` from a fresh bot. -/
def fullRun (p : InputProfile) (entropy : String → ℚ) : GenState :=
  processList p entropy (fullStream p) initState

/-- The in-memory state at the moment a run started fresh is interrupted after
considering `k` candidates (the innermost interrupt checks stop the loop at a
candidate boundary; the handler flushes the sink and saves). -/
def stateAtInterrupt (p : InputProfile) (entropy : String → ℚ) (k : ℕ) :
    GenState :=
  processList p entropy ((fullStream p).take k) initState

/-- The checkpoint written for that interruption. -/
def checkpointAt (p : InputProfile) (entropy : String → ℚ) (k : ℕ) :
    ProgressState :=
  save_progress (some p) (cursorAfter p k).1 (cursorAfter p k).2
    (stateAtInterrupt p entropy k)

/-- Resuming `PassBotEnterprise.run` from a checkpoint, with the sink file's
surviving lines given by `sinkFile` (`none` when the file is missing): lines
1135-1141 open the sink in append mode only when it exists, and otherwise
truncate it; `_load_progress` restores the dedup set and cursor, and
`_generate_passwords` re-enters at the stored phase and position. -/
def resumedRunFromCheckpoint (p : InputProfile) (entropy : String → ℚ)
    (ck : ProgressState) (sinkFile : Option (List String)) : GenState :=
  processList p entropy (streamFrom p ck.current_phase ck.phase_position)
    { generated := ck.generated_passwords
      sink := match sinkFile with | some lines => lines | none => []
      filtered := ck.strong_mode_filtered
      savedCounts := [] }

/-- A run interrupted after `k` considered candidates and then resumed from the
saved checkpoint, the sink file having survived with the lines written so far. -/
def resumedRun (p : InputProfile) (entropy : String → ℚ) (k : ℕ) : GenState :=
  processList p entropy
    (streamFrom p (checkpointAt p entropy k).current_phase
      (checkpointAt p entropy k).phase_position)
    { generated := (checkpointAt p entropy k).generated_passwords
      sink := (stateAtInterrupt p entropy k).sink
      filtered := (checkpointAt p entropy k).strong_mode_filtered
      savedCounts := (stateAtInterrupt p entropy k).savedCounts }

/-! ### `FixedEnterprisePassBot` (passbot_final_fixed.py) -/

/-- `PasswordStrengthCalculator.calculate_complexity_score` of
passbot_final_fixed.py (lines 171-217): as `calculate_score` but with separate
penalties, −10 for `(abc|123|qwe)` and −20 for `(password|admin|user|test)`. -/
def calculate_complexity_score (entropy : String → ℚ) (password : String) : ℚ :=
  if password = "" then 0
  else
    let length := password.length
    let lengthScore : ℚ :=
      if 20 ≤ length then 30
      else if 16 ≤ length then 25
      else if 12 ≤ length then 20
      else if 8 ≤ length then 15
      else (length : ℚ) * (3 / 2)
    let hasLower := password.data.any pyIsLower
    let hasUpper := password.data.any pyIsUpper
    let hasDigit := password.data.any pyIsDigit
    let hasSpecial := password.data.any fun c => !(pyIsAlnum c)
    let charVariety : ℚ :=
      ((cond hasLower 1 0) + (cond hasUpper 1 0) + (cond hasDigit 1 0)
        + (cond hasSpecial 1 0) : ℕ)
    let entropyBonus : ℚ := min 30 (entropy password / 6 * 30)
    let base := lengthScore + charVariety * 10 + entropyBonus
    let base := if hasTripleRepeat password.data then base - 15 else base
    let base :=
      if (["abc".data, "123".data, "qwe".data].any fun n =>
          containsSub n (pyLower password).data) then base - 10 else base
    let base :=
      if (["password".data, "admin".data, "user".data, "test".data].any fun n =>
          containsSub n (pyLower password).data) then base - 20 else base
    max 0 (min 100 base)

/-- The state touched by `_add_unique_password`: the dedup set and the sink. -/
structure FixedState where
  generated : List String
  sink : List String
deriving DecidableEq, Repr

/-- `FixedEnterprisePassBot._add_unique_password` (passbot_final_fixed.py lines
858-883): a non-empty, unseen password is registered into the set first; in
strong mode a score below 60 then merely skips the sink write. -/
def add_unique_password (p : InputProfile) (entropy : String → ℚ)
    (password : String) (t : FixedState) : FixedState :=
  if !(password == "") && !(t.generated.contains password) then
    let t1 : FixedState := { t with generated := t.generated ++ [password] }
    if p.generation_mode == "strong"
        && decide (calculate_complexity_score entropy password < 60) then t1
    else { t1 with sink := t1.sink ++ [password] }
  else t

/-! ### Concrete inputs used by the spec's examples and the analyses below -/

/-- Example A of the spec: `words=["test"]`, no numbers or specials, only the
empty separator, mode `full`. -/
def exampleA : InputProfile :=
  { words := ["test"]
    mobile_numbers := []
    date_fragments := []
    year_ranges := []
    special_chars := []
    number_patterns := []
    output_filename := "passbot_dictionary.txt"
    generation_mode := "full"
    use_underscore_separator := false
    min_output_count := none
    max_output_count := none }

/-- A strong-mode profile. -/
def strongProfile : InputProfile :=
  { exampleA with words := ["alpha"], generation_mode := "strong" }

/-- Example A with a different word list — a profile differing from `exampleA`
in a SeedProfile field. -/
def profileB : InputProfile := { exampleA with words := ["other"] }

/-- A checkpoint written under `exampleA`. -/
def ckA : ProgressState :=
  { generated_passwords := []
    current_phase := 3
    phase_position := 5
    total_generated := 0
    generation_start_time := 0
    last_save_time := 0
    input_profile_data := some exampleA
    strong_mode_filtered := 0 }

/-- A bot about to start under `profileB` while `ckA` (written under
`exampleA`) is still on disk. -/
def botB : LoadedBot :=
  { generated := []
    current_phase := 1
    phase_position := 0
    strong_mode_filtered := 0
    input_profile := some profileB }

/-- The checkpoint of an `exampleA` run interrupted after the first two
phase-1 candidates (`"TEST"` and `"Test"`) were accepted and written. -/
def c5Checkpoint : ProgressState :=
  { generated_passwords := ["TEST", "Test"]
    current_phase := 1
    phase_position := 2
    total_generated := 2
    generation_start_time := 0
    last_save_time := 0
    input_profile_data := some exampleA
    strong_mode_filtered := 0 }

/-- A profile with the output cap set to 1. -/
def capProfile : InputProfile :=
  { exampleA with words := ["ab"], max_output_count := some 1 }

/-- A state in which one password has already been accepted. -/
def capState : GenState := ⟨["a"], ["a"], 0, []⟩

/-- The invariant relating the sink to the dedup set: the sink's lines are
pairwise distinct and every one of them has been registered. -/
def SinkInv (s : GenState) : Prop :=
  s.sink.Nodup ∧ ∀ x ∈ s.sink, x ∈ s.generated

/-! ### Helper lemmas -/

lemma processList_append (p : InputProfile) (e : String → ℚ) (l₁ l₂ : List String)
    (s : GenState) :
    processList p e (l₁ ++ l₂) s = processList p e l₂ (processList p e l₁ s) := by
  induction l₁ generalizing s with
  | nil => rfl
  | cons c cs ih => simp [processList, ih]

lemma drop_append_ge {α : Type} (A B : List α) (k : ℕ) (h : A.length ≤ k) :
    (A ++ B).drop k = B.drop (k - A.length) := by
  induction A generalizing k with
  | nil => simp
  | cons a as ih =>
    cases k with
    | zero => simp at h
    | succ k =>
      simp only [List.cons_append, List.drop_succ_cons, List.length_cons]
      rw [ih k (by simpa using h)]
      congr 1
      omega

/-- Cursor correctness: re-entering `_generate_passwords` at the cursor reached
after `k` considered candidates processes exactly the candidates not yet
considered. -/
lemma streamFrom_cursorAfter (p : InputProfile) (k : ℕ) :
    streamFrom p (cursorAfter p k).1 (cursorAfter p k).2 = (fullStream p).drop k := by
  unfold cursorAfter fullStream
  split_ifs with h1 h2 h3 h4 h5 h6
  · simp only [streamFrom]
    norm_num
    rw [List.drop_append_of_le_length h1]
  · simp only [streamFrom]
    norm_num
    rw [drop_append_ge _ _ k (by omega), List.drop_append_of_le_length h2]
  · simp only [streamFrom]
    norm_num
    rw [drop_append_ge _ _ k (by omega), drop_append_ge _ _ _ (by omega),
      List.drop_append_of_le_length h3]
  · simp only [streamFrom]
    norm_num
    rw [drop_append_ge _ _ k (by omega), drop_append_ge _ _ _ (by omega),
      drop_append_ge _ _ _ (by omega), List.drop_append_of_le_length h4]
  · simp only [streamFrom]
    norm_num
    rw [drop_append_ge _ _ k (by omega), drop_append_ge _ _ _ (by omega),
      drop_append_ge _ _ _ (by omega), drop_append_ge _ _ _ (by omega),
      List.drop_append_of_le_length h5]
  · simp only [streamFrom]
    norm_num
    rw [drop_append_ge _ _ k (by omega), drop_append_ge _ _ _ (by omega),
      drop_append_ge _ _ _ (by omega), drop_append_ge _ _ _ (by omega),
      drop_append_ge _ _ _ (by omega), List.drop_append_of_le_length h6]
  · simp only [streamFrom]
    norm_num
    rw [drop_append_ge _ _ k (by omega), drop_append_ge _ _ _ (by omega),
      drop_append_ge _ _ _ (by omega), drop_append_ge _ _ _ (by omega),
      drop_append_ge _ _ _ (by omega), drop_append_ge _ _ _ (by omega)]

/-- An interrupted-and-resumed run reaches exactly the same final state as the
uninterrupted run: the checkpoint's cursor resumes the candidate stream where
it stopped, and the restored dedup set, sink and counters coincide with the
in-memory state at the interruption. -/
lemma resumedRun_eq_fullRun (p : InputProfile) (e : String → ℚ) (k : ℕ) :
    resumedRun p e k = fullRun p e := by
  show processList p e (streamFrom p (cursorAfter p k).1 (cursorAfter p k).2)
      (stateAtInterrupt p e k) = fullRun p e
  rw [streamFrom_cursorAfter, stateAtInterrupt, fullRun, ← processList_append,
    List.take_append_drop]

lemma sinkInv_extend (g sk : List String) (pw : String) (f2 : ℕ) (sc2 : List ℕ)
    (hnd : sk.Nodup) (hsub : ∀ x ∈ sk, x ∈ g) (hpw : pw ∉ g) :
    SinkInv ⟨g ++ [pw], sk ++ [pw], f2, sc2⟩ := by
  constructor
  · rw [List.nodup_append]
    refine ⟨hnd, List.nodup_singleton pw, ?_⟩
    intro x hx hx2
    rw [List.mem_singleton] at hx2
    subst hx2
    exact hpw (hsub x hx)
  · intro x hx
    rcases List.mem_append.mp hx with hx | hx
    · exact List.mem_append_left _ (hsub x hx)
    · exact List.mem_append_right _ hx

lemma write_password_inv (p : InputProfile) (e : String → ℚ) (pw : String)
    (s : GenState) (h : SinkInv s) : SinkInv (write_password p e pw s).2 := by
  obtain ⟨hnd, hsub⟩ := h
  by_cases h1 : pw ∈ s.generated
  · simpa [write_password, h1] using (⟨hnd, hsub⟩ : SinkInv s)
  · by_cases h2 : p.generation_mode = "strong" ∧ is_strong e pw 60 = false
    · simpa [write_password, h1, h2] using
        (⟨hnd, hsub⟩ : SinkInv ⟨s.generated, s.sink, s.filtered + 1, s.savedCounts⟩)
    · by_cases h3 : capBlocked p s = true
      · simpa [write_password, h1, h2, h3] using (⟨hnd, hsub⟩ : SinkInv s)
      · by_cases h4 : (s.generated.length + 1) % backupInterval = 0
        · simpa [write_password, h1, h2, h3, h4] using
            sinkInv_extend s.generated s.sink pw s.filtered
              (s.savedCounts ++ [s.generated.length + 1]) hnd hsub h1
        · simpa [write_password, h1, h2, h3, h4] using
            sinkInv_extend s.generated s.sink pw s.filtered s.savedCounts hnd hsub h1

lemma processList_inv (p : InputProfile) (e : String → ℚ) (l : List String)
    (s : GenState) (h : SinkInv s) : SinkInv (processList p e l s) := by
  induction l generalizing s with
  | nil => exact h
  | cons c cs ih => exact ih _ (write_password_inv p e c s h)

lemma length_flatMap_const {α β : Type} (l : List α) (f : α → List β) (c : ℕ)
    (h : ∀ a, (f a).length = c) : (l.flatMap f).length = l.length * c := by
  induction l with
  | nil => simp
  | cons a t ih =>
    simp only [List.flatMap_cons, List.length_append, ih, h, List.length_cons]
    ring

lemma sum_map_const {α : Type} (l : List α) (c : ℕ) :
    (l.map fun _ => c).sum = l.length * c := by
  induction l with
  | nil => simp
  | cons a t ih =>
    simp only [List.map_cons, List.sum_cons, ih, List.length_cons]
    ring

lemma sum_range_ite (c n i : ℕ) :
    (((List.range n).map fun j => if i = j then 0 else c)).sum
      = if i < n then (n - 1) * c else n * c := by
  induction n with
  | zero => simp
  | succ n ih =>
    rw [List.range_succ, List.map_append, List.sum_append, ih]
    simp only [List.map_cons, List.map_nil, List.sum_cons, List.sum_nil,
      Nat.add_zero]
    rcases Nat.lt_trichotomy i n with h | h | h
    · rw [if_pos h, if_pos (show i < n + 1 by omega),
        if_neg (show ¬ i = n by omega)]
      obtain ⟨m, rfl⟩ : ∃ m, n = m + 1 := ⟨n - 1, by omega⟩
      simp only [Nat.add_sub_cancel]
      ring
    · subst h
      rw [if_neg (lt_irrefl i), if_pos (Nat.lt_succ_self i), if_pos rfl]
      simp only [Nat.add_sub_cancel, Nat.add_zero]
    · rw [if_neg (show ¬ i < n by omega), if_neg (show ¬ i < n + 1 by omega),
        if_neg (show ¬ i = n by omega)]
      ring

lemma length_enum_pairs {β : Type} (L : List String) (g : String → String → List β)
    (c : ℕ) (hg : ∀ a b, (g a b).length = c) :
    (L.enum.flatMap fun iw => L.enum.flatMap fun jw =>
        if iw.1 = jw.1 then [] else g iw.2 jw.2).length
      = L.length * (L.length - 1) * c := by
  rw [List.length_flatMap]
  simp only [Function.comp_def]
  have hinner : ∀ iw ∈ L.enum,
      (fun iw => ((L.enum.flatMap fun jw =>
          if iw.1 = jw.1 then ([] : List β) else g iw.2 jw.2)).length) iw
        = (L.length - 1) * c := by
    intro iw hiw
    have hlt : iw.1 < L.length := by
      have h3 : iw.1 ∈ L.enum.map Prod.fst := List.mem_map_of_mem Prod.fst hiw
      rw [List.enum_map_fst] at h3
      exact List.mem_range.mp h3
    simp only
    rw [List.length_flatMap]
    simp only [Function.comp_def]
    have h1 : (L.enum.map fun jw =>
          (if iw.1 = jw.1 then ([] : List β) else g iw.2 jw.2).length)
        = L.enum.map fun jw => if iw.1 = jw.1 then 0 else c := by
      apply List.map_congr_left
      intro jw _
      split
      · simp
      · simp [hg]
    rw [h1, show (L.enum.map fun jw => if iw.1 = jw.1 then 0 else c)
        = (L.enum.map Prod.fst).map fun j => if iw.1 = j then 0 else c from by
          rw [List.map_map]; rfl,
      List.enum_map_fst, sum_range_ite, if_pos hlt]
  rw [List.map_congr_left hinner, sum_map_const, List.enum_length, mul_assoc]

lemma capBlocked_of_cap (p : InputProfile) (s : GenState) (m : ℤ)
    (hm : p.max_output_count = some m) (hm0 : ¬ m = 0)
    (hge : m ≤ (s.generated.length : ℤ)) : capBlocked p s = true := by
  simp [capBlocked, hm, hm0, hge]

lemma write_password_at_cap (p : InputProfile) (e : String → ℚ) (pw : String)
    (s : GenState) (hcap : capBlocked p s = true) :
    (write_password p e pw s).1 = false ∧
    (write_password p e pw s).2.generated = s.generated ∧
    (write_password p e pw s).2.sink = s.sink := by
  by_cases h1 : pw ∈ s.generated
  · simp [write_password, h1]
  · by_cases h2 : p.generation_mode = "strong" ∧ is_strong e pw 60 = false
    · simp [write_password, h1, h2]
    · simp [write_password, h1, h2, hcap]

lemma write_password_len_succ (p : InputProfile) (e : String → ℚ) (pw : String)
    (s : GenState) :
    (write_password p e pw s).2.generated.length ≤ s.generated.length + 1 := by
  by_cases h1 : pw ∈ s.generated
  · simp [write_password, h1]
  · by_cases h2 : p.generation_mode = "strong" ∧ is_strong e pw 60 = false
    · simp [write_password, h1, h2]
    · by_cases h3 : capBlocked p s = true
      · simp [write_password, h1, h2, h3]
      · by_cases h4 : (s.generated.length + 1) % backupInterval = 0
        · simp [write_password, h1, h2, h3, h4]
        · simp [write_password, h1, h2, h3, h4]

lemma write_password_cap_le (p : InputProfile) (e : String → ℚ) (pw : String)
    (s : GenState) (m : ℤ) (hm : p.max_output_count = some m) (hm0 : ¬ m = 0)
    (hle : (s.generated.length : ℤ) ≤ m) :
    ((write_password p e pw s).2.generated.length : ℤ) ≤ m := by
  rcases lt_or_eq_of_le hle with hlt | heq
  · have h := write_password_len_succ p e pw s
    have h2 : ((write_password p e pw s).2.generated.length : ℤ)
        ≤ (s.generated.length : ℤ) + 1 := by exact_mod_cast h
    omega
  · rw [(write_password_at_cap p e pw s
      (capBlocked_of_cap p s m hm hm0 (le_of_eq heq.symm))).2.1]
    exact hle

lemma processList_cap_le (p : InputProfile) (e : String → ℚ) (cands : List String)
    (s : GenState) (m : ℤ) (hm : p.max_output_count = some m) (hm0 : ¬ m = 0)
    (hle : (s.generated.length : ℤ) ≤ m) :
    ((processList p e cands s).generated.length : ℤ) ≤ m := by
  induction cands generalizing s with
  | nil => exact hle
  | cons c cs ih => exact ih _ (write_password_cap_le p e c s m hm hm0 hle)

lemma write_password_sink_gen (p : InputProfile) (e : String → ℚ) (pw : String)
    (s : GenState) (h : s.sink.length = s.generated.length) :
    (write_password p e pw s).2.sink.length
      = (write_password p e pw s).2.generated.length := by
  by_cases h1 : pw ∈ s.generated
  · simp [write_password, h1, h]
  · by_cases h2 : p.generation_mode = "strong" ∧ is_strong e pw 60 = false
    · simp [write_password, h1, h2, h]
    · by_cases h3 : capBlocked p s = true
      · simp [write_password, h1, h2, h3, h]
      · by_cases h4 : (s.generated.length + 1) % backupInterval = 0
        · simp [write_password, h1, h2, h3, h4, h]
        · simp [write_password, h1, h2, h3, h4, h]

lemma processList_sink_gen (p : InputProfile) (e : String → ℚ) (cands : List String)
    (s : GenState) (h : s.sink.length = s.generated.length) :
    (processList p e cands s).sink.length
      = (processList p e cands s).generated.length := by
  induction cands generalizing s with
  | nil => exact h
  | cons c cs ih => exact ih _ (write_password_sink_gen p e c s h)

lemma write_password_savedCounts (p : InputProfile) (e : String → ℚ) (pw : String)
    (s : GenState) :
    (write_password p e pw s).2.savedCounts
      = if (write_password p e pw s).1
            && ((write_password p e pw s).2.generated.length % backupInterval == 0)
        then s.savedCounts ++ [(write_password p e pw s).2.generated.length]
        else s.savedCounts := by
  by_cases h1 : pw ∈ s.generated
  · simp [write_password, h1]
  · by_cases h2 : p.generation_mode = "strong" ∧ is_strong e pw 60 = false
    · simp [write_password, h1, h2]
    · by_cases h3 : capBlocked p s = true
      · simp [write_password, h1, h2, h3]
      · by_cases h4 : (s.generated.length + 1) % backupInterval = 0
        · simp [write_password, h1, h2, h3, h4]
        · simp [write_password, h1, h2, h3, h4]

/-! ### Claims -/

/-- C1.  For every SeedProfile, an uninterrupted run and a run interrupted at
any point (after `k` considered candidates, for any `k`) and then resumed from
the saved checkpoint produce identical final output-sink content, compared as a
set. -/
theorem resume_equivalence (p : InputProfile) (e : String → ℚ) (k : ℕ) :
    (resumedRun p e k).sink.toFinset = (fullRun p e).sink.toFinset := by
  rw [resumedRun_eq_fullRun]

/-- C2.  Across an interrupted-and-resumed run (and likewise an uninterrupted
one), each accepted string reaches the sink at most once: the sink's lines,
reduced to a set, have the same cardinality as the sequence of lines. -/
theorem sink_no_duplicates (p : InputProfile) (e : String → ℚ) (k : ℕ) :
    (resumedRun p e k).sink.toFinset.card = (resumedRun p e k).sink.length ∧
    (fullRun p e).sink.toFinset.card = (fullRun p e).sink.length := by
  have hfull : SinkInv (fullRun p e) :=
    processList_inv p e (fullStream p) initState
      ⟨List.nodup_nil, by intro x hx; simp [initState] at hx⟩
  constructor
  · rw [resumedRun_eq_fullRun]
    exact List.toFinset_card_of_nodup hfull.1
  · exact List.toFinset_card_of_nodup hfull.1

/-- C3.  The number of candidates considered (accepted or rejected) in each
phase equals the closed forms of §4.2 for `W = |Words|`, `N = |Numbers|`,
`S = |Specials|`, `P = |Separators|`. -/
theorem phase_count_formulas (p : InputProfile) :
    (phase1 p).length = (allWords p).length ∧
    (phase2 p).length = (allNumbers p).length ∧
    (phase3 p).length
      = (allWords p).length * (allNumbers p).length * (allSeparators p).length * 2 ∧
    (phase4 p).length
      = (allWords p).length * (allSpecials p).length * (allSeparators p).length * 2 ∧
    (phase5 p).length
      = (allNumbers p).length * (allSpecials p).length * (allSeparators p).length * 2 ∧
    (phase6 p).length
      = (allWords p).length * ((allWords p).length - 1) * (allSeparators p).length ∧
    (phase7 p).length
      = (allWords p).length * (allNumbers p).length * (allSpecials p).length
          * (allSeparators p).length ^ 2 * 6
        + (allWords p).length * ((allWords p).length - 1) * (allNumbers p).length
          * (allSeparators p).length ^ 2 * 3 := by
  have h3 : (phase3 p).length
      = (allWords p).length * ((allNumbers p).length * ((allSeparators p).length * 2)) := by
    apply length_flatMap_const
    intro w
    apply length_flatMap_const
    intro n
    apply length_flatMap_const
    intro sep
    rfl
  have h4 : (phase4 p).length
      = (allWords p).length * ((allSpecials p).length * ((allSeparators p).length * 2)) := by
    apply length_flatMap_const
    intro w
    apply length_flatMap_const
    intro sp
    apply length_flatMap_const
    intro sep
    rfl
  have h5 : (phase5 p).length
      = (allNumbers p).length * ((allSpecials p).length * ((allSeparators p).length * 2)) := by
    apply length_flatMap_const
    intro n
    apply length_flatMap_const
    intro sp
    apply length_flatMap_const
    intro sep
    rfl
  have h6 : (phase6 p).length
      = (allWords p).length * ((allWords p).length - 1) * (allSeparators p).length :=
    length_enum_pairs (allWords p)
      (fun a b => (allSeparators p).map fun sep => a ++ sep ++ b)
      (allSeparators p).length (fun a b => List.length_map _ _)
  have h7a : (phase7a p).length
      = (allWords p).length * ((allNumbers p).length * ((allSpecials p).length
          * ((allSeparators p).length * ((allSeparators p).length * 6)))) := by
    apply length_flatMap_const
    intro w
    apply length_flatMap_const
    intro n
    apply length_flatMap_const
    intro sp
    apply length_flatMap_const
    intro s1
    apply length_flatMap_const
    intro s2
    rfl
  have h7b : (phase7b p).length
      = (allWords p).length * ((allWords p).length - 1)
          * ((allNumbers p).length * ((allSeparators p).length
            * ((allSeparators p).length * 3))) := by
    unfold phase7b
    exact length_enum_pairs (allWords p)
      (fun a b => (allNumbers p).flatMap fun n =>
        (allSeparators p).flatMap fun s1 =>
          (allSeparators p).flatMap fun s2 =>
            [a ++ s1 ++ b ++ s2 ++ n, a ++ s1 ++ n ++ s2 ++ b,
             n ++ s1 ++ a ++ s2 ++ b])
      ((allNumbers p).length * ((allSeparators p).length
        * ((allSeparators p).length * 3)))
      (fun a b => by
        apply length_flatMap_const
        intro n
        apply length_flatMap_const
        intro s1
        apply length_flatMap_const
        intro s2
        rfl)
  refine ⟨rfl, rfl, ?_, ?_, ?_, h6, ?_⟩
  · rw [h3]; ring
  · rw [h4]; ring
  · rw [h5]; ring
  · show (phase7a p ++ phase7b p).length = _
    rw [List.length_append, h7a, h7b]; ring

/-- C4, counterexample.  A checkpoint written under `exampleA` is accepted for
resume by a bot configured with the different profile `profileB`: no
fingerprint is compared, so the mismatch does not force a fresh start — the
claim as stated is false. -/
theorem fingerprint_gating_counterexample :
    ¬ exampleA = profileB ∧
    (load_progress (some ckA) botB).1 = true ∧
    (load_progress (some ckA) botB).2.input_profile = some exampleA := by
  refine ⟨by decide, rfl, rfl⟩

/-- C4, amended.  On start with an existing checkpoint, `_load_progress`
computes no fingerprint and performs no comparison: every existing checkpoint
is accepted for resume, the stored cursor and dedup set are restored, and the
SeedProfile stored in the checkpoint simply overrides the current one (a
checkpoint with an empty stored profile keeps the bot's); only a missing
checkpoint yields a fresh start. -/
theorem fingerprint_gating_amended (ps : ProgressState) (b : LoadedBot) :
    (load_progress (some ps) b).1 = true ∧
    load_progress none b = (false, b) ∧
    (load_progress (some ps) b).2.current_phase = ps.current_phase ∧
    (load_progress (some ps) b).2.phase_position = ps.phase_position ∧
    (load_progress (some ps) b).2.generated = ps.generated_passwords ∧
    (load_progress (some ps) b).2.input_profile
      = match ps.input_profile_data with
        | some pr => some pr
        | none => b.input_profile := by
  refine ⟨rfl, rfl, rfl, rfl, rfl, rfl⟩

/-- C5.  Resuming `exampleA` from a checkpoint claiming `total_generated = 2`
while the output sink file is missing is NOT forced to start fresh: the run
resumes with the pickled dedup set, truncates the sink, and ends with only 7
lines, never re-emitting `"TEST"` — which an uninterrupted (or fresh) run does
emit.  This evaluates the code at the failing input of
`tests/test_passbot.py::test_resume_with_missing_output_file_triggers_fresh_start`. -/
theorem resume_missing_sink_divergence :
    0 < c5Checkpoint.total_generated ∧
    (resumedRunFromCheckpoint exampleA (fun _ => 0) c5Checkpoint none).sink
      = ["test", "TESTTest", "TESTtest", "TestTEST", "Testtest", "testTEST",
         "testTest"] ∧
    ¬ "TEST" ∈ (resumedRunFromCheckpoint exampleA (fun _ => 0) c5Checkpoint none).sink ∧
    "TEST" ∈ (fullRun exampleA (fun _ => 0)).sink := by
  refine ⟨by decide, by decide, by decide, by decide⟩

/-- C6, counterexample.  In strong mode the weak candidate `"test"` (score 0),
on its first observation, is rejected by the strength filter WITHOUT being
registered into the dedup set — `_write_password` registers only accepted
candidates, so the claim as stated is false. -/
theorem dedup_registration_counterexample :
    initState.generated.contains "test" = false ∧
    (write_password strongProfile (fun _ => 0) "test" initState).1 = false ∧
    (write_password strongProfile (fun _ => 0) "test" initState).2.generated = [] ∧
    (write_password strongProfile (fun _ => 0) "test" initState).2.filtered = 1 := by
  have hscore : calculate_score (fun _ => 0) "test" = 0 := by
    simp only [calculate_score,
      show hasTripleRepeat "test".data = false from by decide,
      show hasWeakPattern (pyLower "test").data = true from by decide,
      show "test".data.any pyIsLower = true from by decide,
      show "test".data.any pyIsUpper = false from by decide,
      show "test".data.any pyIsDigit = false from by decide,
      show ("test".data.any fun c => !(pyIsAlnum c)) = false from by decide,
      show "test".length = 4 from rfl,
      eq_false (show ¬(("test" : String) = "") from by decide),
      cond_true, cond_false]
    norm_num
  have hs : is_strong (fun _ => 0) "test" 60 = false := by
    simp only [is_strong, hscore]
    exact decide_eq_false (by norm_num)
  refine ⟨rfl, ?_, ?_, ?_⟩ <;>
    simp [write_password, initState, strongProfile, exampleA, hs]

/-- C6, amended.  In `_write_password` the dedup check runs before strength
filtering — a duplicate short-circuits the call with the state unchanged, so
it is never scored — but a candidate is registered as seen iff it is
*accepted* (first observation that also passes the strength filter and the
cap), not iff it is first observed.  The cited
`FixedEnterprisePassBot._add_unique_password` does implement
registration-on-first-observation for non-empty candidates. -/
theorem dedup_registration_amended (p q : InputProfile) (e : String → ℚ)
    (s : GenState) (t : FixedState) (pw pw2 : String)
    (hdup : s.generated.contains pw2 = true) (hpw : ¬ pw = "") :
    write_password p e pw2 s = (false, s) ∧
    ((write_password p e pw s).2.generated
      = if (write_password p e pw s).1 then s.generated ++ [pw] else s.generated) ∧
    ((add_unique_password q e pw t).generated
      = if t.generated.contains pw then t.generated else t.generated ++ [pw]) := by
  refine ⟨?_, ?_, ?_⟩
  · have hmem : pw2 ∈ s.generated := by simpa using hdup
    simp [write_password, hmem]
  · by_cases h1 : pw ∈ s.generated
    · simp [write_password, h1]
    · by_cases h2 : p.generation_mode = "strong" ∧ is_strong e pw 60 = false
      · simp [write_password, h1, h2]
      · by_cases h3 : capBlocked p s = true
        · simp [write_password, h1, h2, h3]
        · by_cases h4 : (s.generated.length + 1) % backupInterval = 0
          · simp [write_password, h1, h2, h3, h4]
          · simp [write_password, h1, h2, h3, h4]
  · by_cases hc : pw ∈ t.generated
    · simp [add_unique_password, hc]
    · by_cases hstr : q.generation_mode = "strong"
        ∧ calculate_complexity_score e pw < 60
      · simp [add_unique_password, hc, hpw, hstr]
      · simp [add_unique_password, hc, hpw, hstr]

/-- C6, witness for the amended theorem at concrete inputs: a duplicate is
rejected unchanged, registration coincides with acceptance, and the fixed
variant registers an unseen non-empty candidate. -/
theorem dedup_registration_amended_witness :
    write_password exampleA (fun _ => 0) "zz"
        ⟨["zz"], ["zz"], 0, []⟩ = (false, ⟨["zz"], ["zz"], 0, []⟩) ∧
    ((write_password exampleA (fun _ => 0) "ab" ⟨["zz"], ["zz"], 0, []⟩).2.generated
      = if (write_password exampleA (fun _ => 0) "ab" ⟨["zz"], ["zz"], 0, []⟩).1
        then (⟨["zz"], ["zz"], 0, []⟩ : GenState).generated ++ ["ab"]
        else (⟨["zz"], ["zz"], 0, []⟩ : GenState).generated) ∧
    ((add_unique_password exampleA (fun _ => 0) "ab" ⟨[], []⟩).generated
      = if (⟨[], []⟩ : FixedState).generated.contains "ab"
        then (⟨[], []⟩ : FixedState).generated
        else (⟨[], []⟩ : FixedState).generated ++ ["ab"]) :=
  dedup_registration_amended exampleA exampleA (fun _ => 0)
    ⟨["zz"], ["zz"], 0, []⟩ ⟨[], []⟩ "ab" "zz" (by decide) (by decide)

/-- C7.  In strong mode a de-duplicated candidate (with the cap not blocking)
is emitted to the sink iff its complexity score reaches the threshold used at
the call site, the default 60; and for every input string and every entropy
function the score lies in `[0, 100]`. -/
theorem strong_filter_spec (p : InputProfile) (e e2 : String → ℚ) (s : GenState)
    (pw x : String) (hmode : p.generation_mode = "strong")
    (hnew : s.generated.contains pw = false)
    (hcap : capBlocked p s = false) :
    ((write_password p e pw s).2.sink = s.sink ++ [pw]
      ↔ 60 ≤ calculate_score e pw) ∧
    0 ≤ calculate_score e2 x ∧ calculate_score e2 x ≤ 100 := by
  refine ⟨?_, ?_, ?_⟩
  · have hmem : ¬ pw ∈ s.generated := by simpa using hnew
    by_cases hstrong : is_strong e pw 60 = true
    · have hval : 60 ≤ calculate_score e pw := by simpa [is_strong] using hstrong
      have hs2 : ¬ (p.generation_mode = "strong" ∧ is_strong e pw 60 = false) := by
        simp [hstrong]
      by_cases h4 : (s.generated.length + 1) % backupInterval = 0
      · simp [write_password, hmem, hs2, hcap, h4, hval]
      · simp [write_password, hmem, hs2, hcap, h4, hval]
    · have hval : ¬ 60 ≤ calculate_score e pw := by simpa [is_strong] using hstrong
      have hs2 : p.generation_mode = "strong" ∧ is_strong e pw 60 = false :=
        ⟨hmode, by simpa using hstrong⟩
      simp [write_password, hmem, hs2, hval]
  · by_cases hx : x = ""
    · simp [calculate_score, hx]
    · unfold calculate_score
      rw [if_neg hx]
      exact le_max_left _ _
  · by_cases hx : x = ""
    · simp [calculate_score, hx]
    · unfold calculate_score
      rw [if_neg hx]
      exact max_le (by norm_num) (min_le_left _ _)

/-- C7, witness: the hypotheses of `strong_filter_spec` hold at a concrete
strong-mode profile, fresh state and candidate. -/
theorem strong_filter_spec_witness :
    ((write_password strongProfile (fun _ => 6) "XkQmZpWv" initState).2.sink
      = initState.sink ++ ["XkQmZpWv"]
        ↔ 60 ≤ calculate_score (fun _ => 6) "XkQmZpWv") ∧
    0 ≤ calculate_score (fun _ => 0) "abc" ∧
    calculate_score (fun _ => 0) "abc" ≤ 100 :=
  strong_filter_spec strongProfile (fun _ => 6) (fun _ => 0) initState
    "XkQmZpWv" "abc" rfl rfl rfl

/-- C8.  Example A: for `words = ["test"]`, no numbers or specials, only the
empty separator and mode `full`, a complete run emits exactly the nine claimed
strings — three case variants from phase 1 and six ordered distinct word pairs
from phase 6 — while phases 2-5 and 7 contribute nothing. -/
theorem example_a_run :
    (fullRun exampleA (fun _ => 0)).sink.toFinset
      = {"test", "TEST", "Test", "testTEST", "TESTtest", "testTest", "Testtest",
         "TESTTest", "TestTEST"} ∧
    (fullRun exampleA (fun _ => 0)).sink.length = 9 ∧
    (phase1 exampleA).toFinset = {"test", "TEST", "Test"} ∧
    phase2 exampleA = [] ∧
    phase3 exampleA = [] ∧
    phase4 exampleA = [] ∧
    phase5 exampleA = [] ∧
    (phase6 exampleA).toFinset
      = {"testTEST", "TESTtest", "testTest", "Testtest", "TESTTest", "TestTEST"} ∧
    (phase6 exampleA).length = 6 ∧
    phase7 exampleA = [] := by
  refine ⟨by decide, by decide, by decide, by decide, by decide, by decide,
    by decide, by decide, by decide, by decide⟩

/-- C9, counterexample.  On clean (uninterrupted) completion,
`PassBotEnterprise.run` calls `_save_progress` once more and never removes the
progress file: the file remains `some _` instead of being deleted — the
deletion part of the claim is false for 28102025.py. -/
theorem checkpoint_schedule_counterexample :
    runCompletionFile false ckA (some ckA) = some ckA ∧
    ¬ runCompletionFile false ckA (some ckA) = none :=
  ⟨rfl, fun h => Option.noConfusion h⟩

/-- C9, amended.  A checkpoint is written by `_write_password` exactly when the
candidate is accepted and the accepted count reaches a multiple of the fixed
`backup_interval`, and unconditionally by the interrupt handler; on clean
completion the progress file is deleted in the `passbot_final_fixed` variant,
while 28102025's `run` instead saves a final checkpoint and never deletes the
file. -/
theorem checkpoint_schedule_amended (p : InputProfile) (e : String → ℚ)
    (pw : String) (s : GenState) (pr : Option InputProfile) (ph pos : ℕ)
    (f : Option ProgressState) (ck : ProgressState) :
    ((write_password p e pw s).2.savedCounts
      = if (write_password p e pw s).1
            && ((write_password p e pw s).2.generated.length % backupInterval == 0)
        then s.savedCounts ++ [(write_password p e pw s).2.generated.length]
        else s.savedCounts) ∧
    handle_interrupt pr ph pos s f = (some (save_progress pr ph pos s), true) ∧
    runCompletionFile false ck f = some ck ∧
    runCompletionFile true ck f = f ∧
    fixedCompletionCleanup false f = none ∧
    fixedCompletionCleanup true f = f :=
  ⟨write_password_savedCounts p e pw s, rfl, rfl, rfl, rfl, rfl⟩

/-- C10.  With a configured cap `m`, once the accepted count has reached `m`
every further candidate is rejected with the dedup set and the sink unchanged,
any continuation keeps the accepted count at most `m`, and a whole run's
emitted line count never exceeds `m`. -/
theorem max_cap_invariant (p : InputProfile) (e : String → ℚ) (s : GenState)
    (pw : String) (cands : List String) (m : ℤ)
    (hm : p.max_output_count = some m) (hm0 : ¬ m = 0)
    (hlen : (s.generated.length : ℤ) = m) :
    (write_password p e pw s).1 = false ∧
    (write_password p e pw s).2.generated = s.generated ∧
    (write_password p e pw s).2.sink = s.sink ∧
    ((processList p e cands s).generated.length : ℤ) ≤ m ∧
    ((fullRun p e).sink.length : ℤ) ≤ m := by
  have hcap : capBlocked p s = true :=
    capBlocked_of_cap p s m hm hm0 (le_of_eq hlen.symm)
  have hat := write_password_at_cap p e pw s hcap
  have h0m : (0 : ℤ) ≤ m := by
    rw [← hlen]
    exact Int.natCast_nonneg _
  refine ⟨hat.1, hat.2.1, hat.2.2, ?_, ?_⟩
  · exact processList_cap_le p e cands s m hm hm0 (le_of_eq hlen)
  · have hsg : (fullRun p e).sink.length = (fullRun p e).generated.length :=
      processList_sink_gen p e (fullStream p) initState rfl
    rw [hsg]
    exact processList_cap_le p e (fullStream p) initState m hm hm0
      (by simpa [initState] using h0m)

/-- C10, witness: with cap 1 and one accepted password, a further candidate is
rejected with set and sink unchanged, and runs stay within the cap. -/
theorem max_cap_invariant_witness :
    (write_password capProfile (fun _ => 0) "b" capState).1 = false ∧
    (write_password capProfile (fun _ => 0) "b" capState).2.generated
      = capState.generated ∧
    (write_password capProfile (fun _ => 0) "b" capState).2.sink = capState.sink ∧
    ((processList capProfile (fun _ => 0) ["b", "c"] capState).generated.length : ℤ)
      ≤ 1 ∧
    ((fullRun capProfile (fun _ => 0)).sink.length : ℤ) ≤ 1 :=
  max_cap_invariant capProfile (fun _ => 0) capState "b" ["b", "c"] 1 rfl
    (by decide) (by decide)

end PassBot
